import Mathlib

/-!
Verification of the `korea-public-data-portal-ssl-adapter` repository
(`public_data_api_ssl_adapter.py`) against its specification.

The development shallowly embeds the Python module:

* `SSLContext` models the mutable `ssl.SSLContext` record as far as the
  adapter touches it (version bounds, cipher string, hostname check,
  verify mode, option bits).
* `SSLModule` models which of the two legacy option constants the `ssl`
  module exposes (`None` stands for a missing attribute).  Reading a
  missing attribute without a `hasattr` guard raises `AttributeError`,
  modelled as `Except.error`.
* `init_poolmanager` is split into `init_poolmanager_ctx` (lines 40-67:
  building the context) and `init_poolmanager` itself (lines 69-70:
  overwriting `kwargs["ssl_context"]` and forwarding to the superclass).
* Sessions live on an explicit heap (`World`): `requests.Session()`
  allocates a fresh header dictionary, so two sessions never share one.
  Python dictionaries are embedded as association lists with
  insertion-order update semantics (`dictSet` / `dictGet` / `dictUpdate`).
* `public_data_api_get` / `public_data_api_post` additionally produce an
  event trace recording each session construction and each issued
  request, so that "exactly one request with the arguments passed
  through verbatim" is a statement about the trace.
-/

set_option autoImplicit false

/-- The TLS protocol versions of `ssl.TLSVersion` that matter here. -/
inductive TLSVersion where
  | SSLv3
  | TLSv1
  | TLSv1_1
  | TLSv1_2
  | TLSv1_3
deriving DecidableEq, Repr

/-- Chronological rank of a TLS version, for comparing versions. -/
def TLSVersion.rank : TLSVersion → Nat
  | .SSLv3 => 0
  | .TLSv1 => 1
  | .TLSv1_1 => 2
  | .TLSv1_2 => 3
  | .TLSv1_3 => 4

/-- Certificate verification modes of the `ssl` module. -/
inductive VerifyMode where
  | CERT_NONE
  | CERT_OPTIONAL
  | CERT_REQUIRED
deriving DecidableEq, Repr

/-- The part of `ssl.SSLContext` state the adapter reads or writes. -/
structure SSLContext where
  minimum_version : TLSVersion
  maximum_version : TLSVersion
  ciphers : String
  check_hostname : Bool
  verify_mode : VerifyMode
  options : Nat
deriving DecidableEq, Repr

/-- Which legacy option constants the `ssl` module exposes, with their
bit values; `none` models a missing module attribute. -/
structure SSLModule where
  OP_LEGACY_SERVER_CONNECT : Option Nat
  OP_DONT_INSERT_EMPTY_FRAGMENTS : Option Nat
deriving DecidableEq, Repr

/-- A TLS version is negotiable under a context iff it lies between the
context's minimum and maximum versions (inclusive). -/
def negotiable (ctx : SSLContext) (v : TLSVersion) : Bool :=
  decide (ctx.minimum_version.rank ≤ v.rank) && decide (v.rank ≤ ctx.maximum_version.rank)

/-- The `weak_ciphers` list of `init_poolmanager` (source lines 48-54).
`DES-CBC3-SHA` is the OpenSSL name of the `TLS_RSA_WITH_3DES_EDE_CBC_SHA`
(3DES-CBC-SHA) suite. -/
def weak_ciphers : List String :=
  ["AES128-SHA", "AES256-SHA", "DHE-RSA-AES128-SHA", "DHE-RSA-AES256-SHA", "DES-CBC3-SHA"]

/-- The `cipher_string` of `init_poolmanager` (source line 57):
`":".join(weak_ciphers) + ":!aNULL:!eNULL"`. -/
def cipher_string : String :=
  String.intercalate ":" weak_ciphers ++ ":!aNULL:!eNULL"

/-- The context-building part of `PublicDataApiSSLAdapter.init_poolmanager`
(source lines 40-67), for an arbitrary context `ctx0` returned by
`create_urllib3_context()`.  `ctx.options |= ssl.OP_LEGACY_SERVER_CONNECT`
reads the attribute unguarded, so a missing constant raises
`AttributeError`; only `OP_DONT_INSERT_EMPTY_FRAGMENTS` is guarded by
`hasattr`. -/
def init_poolmanager_ctx (ssl : SSLModule) (ctx0 : SSLContext) : Except String SSLContext :=
  let ctx1 := { ctx0 with minimum_version := TLSVersion.TLSv1, maximum_version := TLSVersion.TLSv1_2 }
  let ctx2 := { ctx1 with ciphers := cipher_string }
  let ctx3 := { ctx2 with check_hostname := false }
  let ctx4 := { ctx3 with verify_mode := VerifyMode.CERT_NONE }
  match ssl.OP_LEGACY_SERVER_CONNECT with
  | none => Except.error "AttributeError: module ssl has no attribute OP_LEGACY_SERVER_CONNECT"
  | some lsc =>
    let ctx5 := { ctx4 with options := ctx4.options ||| lsc }
    match ssl.OP_DONT_INSERT_EMPTY_FRAGMENTS with
    | some dief => Except.ok { ctx5 with options := ctx5.options ||| dief }
    | none => Except.ok ctx5

/-- Values that can appear in the `*args` / `**kwargs` of
`init_poolmanager`: the SSL context the adapter installs, or any other
(uninterpreted) Python value. -/
inductive PMVal where
  | sslctx (c : SSLContext)
  | raw (n : Nat)
deriving DecidableEq, Repr

/-- Python dictionary assignment `d[k] = v` on an association list with
unique keys: replace the value in place if the key is present, else
append at the end (Python dictionaries preserve insertion order). -/
def dictSet {α : Type} (d : List (String × α)) (k : String) (v : α) : List (String × α) :=
  match d with
  | [] => [(k, v)]
  | kv :: rest => if kv.fst = k then (k, v) :: rest else kv :: dictSet rest k v

/-- Python dictionary lookup `d[k]` on an association list: the value at
the first matching key, if any. -/
def dictGet {α : Type} : List (String × α) → String → Option α
  | [], _ => none
  | kv :: rest, k => if kv.fst = k then some kv.snd else dictGet rest k

/-- Python `d.update(u)`: set each key of `u` in order. -/
def dictUpdate {α : Type} (d u : List (String × α)) : List (String × α) :=
  u.foldl (fun acc kv => dictSet acc kv.fst kv.snd) d

/-- The whole of `PublicDataApiSSLAdapter.init_poolmanager` (source lines
30-70): build the context, overwrite `kwargs["ssl_context"]` with it, and
forward `*args, **kwargs` to `super().init_poolmanager`.  The result is
the argument pair that reaches the superclass initializer. -/
def init_poolmanager (ssl : SSLModule) (ctx0 : SSLContext) (args : List PMVal)
    (kwargs : List (String × PMVal)) : Except String (List PMVal × List (String × PMVal)) :=
  match init_poolmanager_ctx ssl ctx0 with
  | Except.error e => Except.error e
  | Except.ok ctx => Except.ok (args, dictSet kwargs "ssl_context" (PMVal.sslctx ctx))

/-- Transport adapters that can be mounted on a session. -/
inductive Adapter where
  | defaultAdapter
  | publicDataApiSSLAdapter
deriving DecidableEq, Repr

/-- A `requests.Session` object: a reference to its header dictionary on
the heap, and its mount table of (url-scheme-prefix, adapter) pairs kept
in longest-prefix-first order. -/
structure Session where
  headersRef : Nat
  adapters : List (String × Adapter)
deriving DecidableEq, Repr

/-- The heap of header dictionaries; a reference is an index. -/
structure World where
  heap : List (List (String × String))
deriving DecidableEq, Repr

/-- Read a session's header dictionary. -/
def readHeaders (w : World) (r : Nat) : List (String × String) :=
  w.heap.getD r []

/-- Overwrite a session's header dictionary (models a mutation of the
dictionary object behind the reference). -/
def writeHeaders (w : World) (r : Nat) (h : List (String × String)) : World :=
  ⟨w.heap.set r h⟩

/-- The default headers `requests.Session()` installs (cleared by the
factory before the fixed set is applied; the exact User-Agent version
string varies by requests release and is irrelevant here). -/
def requests_default_headers : List (String × String) :=
  [("User-Agent", "python-requests/2.31.0"),
   ("Accept-Encoding", "gzip, deflate"),
   ("Accept", "*/*"),
   ("Connection", "keep-alive")]

/-- `requests.Session()`: allocate a fresh header dictionary holding the
library defaults, with the default adapter mounted for both schemes
(longest prefix first). -/
def requests_Session_init (w : World) : Session × World :=
  ({ headersRef := w.heap.length,
     adapters := [("https://", Adapter.defaultAdapter), ("http://", Adapter.defaultAdapter)] },
   ⟨w.heap ++ [requests_default_headers]⟩)

/-- `Session.mount(prefix, adapter)` as `requests` implements it: set the
key, then move all strictly shorter prefixes behind it, preserving their
relative order. -/
def Session.mount (s : Session) (p : String) (a : Adapter) : Session :=
  let ads := dictSet s.adapters p a
  { s with adapters :=
      ads.filter (fun kv => !(decide (kv.fst.length < p.length)))
        ++ ads.filter (fun kv => decide (kv.fst.length < p.length)) }

/-- Python `s.lower()` (on the character list of the string). -/
def strToLower (s : String) : String :=
  String.mk (s.data.map Char.toLower)

/-- Python `s.startswith(p)` (on the character lists of the strings). -/
def strStartsWith (s p : String) : Bool :=
  p.data.isPrefixOf s.data

/-- `Session.get_adapter(url)` as `requests` implements it: the first
mounted key `k` with `url.lower().startswith(k.lower())` wins;
no match raises `InvalidSchema`. -/
def Session.get_adapter (s : Session) (url : String) : Except String Adapter :=
  match s.adapters.find? (fun kv => strStartsWith (strToLower url) (strToLower kv.fst)) with
  | some kv => Except.ok kv.snd
  | none => Except.error "InvalidSchema"

/-- The header dictionary literal of
`PublicDataApiSSLAdapter.create_public_data_api_session`
(source lines 91-101). -/
def session_headers : List (String × String) :=
  [("User-Agent", "User-Agent"),
   ("Accept", "application/json, application/xml, text/plain, */*"),
   ("Accept-Language", "ko-KR,ko;q=0.9,en;q=0.8"),
   ("Accept-Encoding", "gzip, deflate, br"),
   ("Connection", "keep-alive"),
   ("Upgrade-Insecure-Requests", "1"),
   ("Referer", "https://www.data.go.kr")]

/-- Events observable while running the module's functions. -/
inductive Event where
  | sessionCreated (ref : Nat)
  | request (m : Nat) (sessionRef : Nat) (url : String) (opts : List (String × String))
deriving DecidableEq, Repr

/-- HTTP method codes for trace events: 0 = GET, 1 = POST. -/
def methodGET : Nat := 0

/-- HTTP method code for POST trace events. -/
def methodPOST : Nat := 1

/-- `PublicDataApiSSLAdapter.create_public_data_api_session` (source
lines 72-103): construct a `requests.Session`, mount the SSL adapter for
`"https://"`, clear the session's headers, then update them with the
fixed dictionary.  Returns the session, the new heap, and the trace of
this call. -/
def PublicDataApiSSLAdapter.create_public_data_api_session (w : World) :
    Session × World × List Event :=
  let sw := requests_Session_init w
  let s := sw.1.mount "https://" Adapter.publicDataApiSSLAdapter
  let w1 := writeHeaders sw.2 s.headersRef []
  let w2 := writeHeaders w1 s.headersRef (dictUpdate (readHeaders w1 s.headersRef) session_headers)
  (s, w2, [Event.sessionCreated s.headersRef])

/-- The module-level factory function `create_public_data_api_session`
(source lines 107-119): construct an adapter (stateless) and call its
session factory method. -/
def create_public_data_api_session (w : World) : Session × World × List Event :=
  PublicDataApiSSLAdapter.create_public_data_api_session w

/-- `session.get(url, **kwargs)` respectively `session.post(...)`: ask
the network oracle `net` for the response and record the request event,
with the URL and options passed through verbatim. -/
def Session.request (net : Nat → String → List (String × String) → Nat) (s : Session)
    (m : Nat) (url : String) (opts : List (String × String)) : Nat × Event :=
  (net m url opts, Event.request m s.headersRef url opts)

/-- `public_data_api_get(url, **kwargs)` (source lines 122-138). -/
def public_data_api_get (net : Nat → String → List (String × String) → Nat) (w : World)
    (url : String) (opts : List (String × String)) : Nat × World × List Event :=
  let swe := create_public_data_api_session w
  let re := Session.request net swe.1 methodGET url opts
  (re.1, swe.2.1, swe.2.2 ++ [re.2])

/-- `public_data_api_post(url, **kwargs)` (source lines 141-157). -/
def public_data_api_post (net : Nat → String → List (String × String) → Nat) (w : World)
    (url : String) (opts : List (String × String)) : Nat × World × List Event :=
  let swe := create_public_data_api_session w
  let re := Session.request net swe.1 methodPOST url opts
  (re.1, swe.2.1, swe.2.2 ++ [re.2])

/-- Modelled from the spec: "`get(url, **opts)` issues exactly one
request equivalent to constructing a session and calling its GET with
the same arguments" — the composition of the session factory (§4.2)
with one `Session.request` carrying the caller's URL and options. -/
def spec_get_via_factory (net : Nat → String → List (String × String) → Nat) (w : World)
    (url : String) (opts : List (String × String)) : Nat × World × List Event :=
  let swe := create_public_data_api_session w
  let re := Session.request net swe.1 methodGET url opts
  (re.1, swe.2.1, swe.2.2 ++ [re.2])

/-- Modelled from the spec: the POST analogue of `spec_get_via_factory`. -/
def spec_post_via_factory (net : Nat → String → List (String × String) → Nat) (w : World)
    (url : String) (opts : List (String × String)) : Nat × World × List Event :=
  let swe := create_public_data_api_session w
  let re := Session.request net swe.1 methodPOST url opts
  (re.1, swe.2.1, swe.2.2 ++ [re.2])

/-- Check whether `needle` occurs as a contiguous run somewhere in the
character list (at this position or further right). -/
def charListContainsSub (needle : List Char) : List Char → Bool
  | [] => needle.isEmpty
  | c :: rest => needle.isPrefixOf (c :: rest) || charListContainsSub needle rest

/-- Python `needle in hay` on strings. -/
def strContains (hay needle : String) : Bool :=
  charListContainsSub needle.data hay.data

/-- Split a character list at a separator character, accumulating the
current component in reverse. -/
def splitOnCharAux (sep : Char) : List Char → List Char → List String
  | [], acc => [String.mk acc.reverse]
  | c :: rest, acc =>
    if c = sep then String.mk acc.reverse :: splitOnCharAux sep rest []
    else splitOnCharAux sep rest (c :: acc)

/-- The components of an OpenSSL cipher string: split at each colon. -/
def strSplitOnColon (s : String) : List String :=
  splitOnCharAux ':' s.data []

/-- The assertions of `test_adapter.py::test_user_agent_format` (source
lines 114-122) on the session's User-Agent value. -/
def test_user_agent_format_asserts (ua : String) : Bool :=
  strContains ua "Mozilla" && strContains ua "Chrome" && strContains ua "Safari"

/-- The context state of source lines 40-62 (everything `init_poolmanager`
assigns before the legacy option bits), applied to the context `ctx0`
returned by `create_urllib3_context()`. -/
def base_legacy_ctx (ctx0 : SSLContext) : SSLContext :=
  { ctx0 with
    minimum_version := TLSVersion.TLSv1,
    maximum_version := TLSVersion.TLSv1_2,
    ciphers := cipher_string,
    check_hostname := false,
    verify_mode := VerifyMode.CERT_NONE }

/-- A concrete context as `create_urllib3_context()` returns it (modern
urllib3 defaults), used to instantiate the universally quantified
theorems at one input. -/
def urllib3DefaultContext : SSLContext :=
  { minimum_version := TLSVersion.TLSv1_2,
    maximum_version := TLSVersion.TLSv1_3,
    ciphers := "DEFAULT",
    check_hostname := false,
    verify_mode := VerifyMode.CERT_REQUIRED,
    options := 0 }

/-- An `ssl` module exposing both legacy constants, with the OpenSSL bit
values `SSL_OP_LEGACY_SERVER_CONNECT = 0x4` and
`SSL_OP_DONT_INSERT_EMPTY_FRAGMENTS = 0x800`. -/
def sslModuleFull : SSLModule := ⟨some 4, some 2048⟩

/-- An `ssl` module missing the `OP_LEGACY_SERVER_CONNECT` attribute. -/
def sslModuleNoLegacy : SSLModule := ⟨none, some 2048⟩

/-- An `ssl` module missing only `OP_DONT_INSERT_EMPTY_FRAGMENTS` (the
usual situation on modern CPython builds). -/
def sslModuleOnlyLegacy : SSLModule := ⟨some 4, none⟩

/-- The context `init_poolmanager` builds from `urllib3DefaultContext`
under `sslModuleFull`. -/
def builtCtxFull : SSLContext :=
  { base_legacy_ctx urllib3DefaultContext with
    options := urllib3DefaultContext.options ||| 4 ||| 2048 }

/-- A concrete keyword-argument dictionary holding a caller-supplied
`ssl_context` (to be overwritten) and one unrelated key. -/
def kwargsExample : List (String × PMVal) :=
  [("ssl_context", PMVal.raw 99), ("maxsize", PMVal.raw 10)]

/-- The empty heap. -/
def emptyWorld : World := ⟨[]⟩

/-- The session returned by the first of two successive factory calls. -/
def firstSession (w : World) : Session :=
  (create_public_data_api_session w).1

/-- The heap after the first factory call. -/
def worldAfterFirst (w : World) : World :=
  (create_public_data_api_session w).2.1

/-- The session returned by the second of two successive factory calls. -/
def secondSession (w : World) : Session :=
  (create_public_data_api_session (worldAfterFirst w)).1

/-- The heap after the second factory call. -/
def worldAfterSecond (w : World) : World :=
  (create_public_data_api_session (worldAfterFirst w)).2.1

/-! ### Helper lemmas -/

theorem list_set_append_length {α : Type} (l : List α) (a v : α) :
    (l ++ [a]).set l.length v = l ++ [v] := by
  induction l with
  | nil => rfl
  | cons x xs ih =>
    show x :: ((xs ++ [a]).set xs.length v) = x :: (xs ++ [v])
    rw [ih]

theorem list_getD_append_length {α : Type} (l : List α) (v d : α) :
    (l ++ [v]).getD l.length d = v := by
  induction l with
  | nil => rfl
  | cons x xs ih => exact ih

theorem list_getD_append_lt {α : Type} (l l2 : List α) (i : Nat) (d : α) (h : i < l.length) :
    (l ++ l2).getD i d = l.getD i d := by
  induction l generalizing i with
  | nil => cases h
  | cons x xs ih =>
    cases i with
    | zero => rfl
    | succ i => exact ih i (Nat.lt_of_succ_lt_succ h)

theorem list_getD_set_ne {α : Type} (l : List α) (i j : Nat) (v d : α) (h : i ≠ j) :
    (l.set i v).getD j d = l.getD j d := by
  induction l generalizing i j with
  | nil => rfl
  | cons x xs ih =>
    cases i with
    | zero =>
      cases j with
      | zero => exact absurd rfl h
      | succ j => rfl
    | succ i =>
      cases j with
      | zero => rfl
      | succ j => exact ih i j (fun e => h (congrArg Nat.succ e))

theorem dictGet_dictSet_same {α : Type} (d : List (String × α)) (k : String) (v : α) :
    dictGet (dictSet d k v) k = some v := by
  induction d with
  | nil => simp [dictGet, dictSet]
  | cons kv rest ih =>
    by_cases hk : kv.fst = k
    · simp [dictGet, dictSet, hk]
    · simp [dictGet, dictSet, hk, ih]

theorem dictGet_dictSet_ne {α : Type} (d : List (String × α)) (k k2 : String) (v : α)
    (h : k2 ≠ k) :
    dictGet (dictSet d k v) k2 = dictGet d k2 := by
  have hkk : ¬ k = k2 := fun e => h (Eq.symm e)
  induction d with
  | nil => simp [dictGet, dictSet, hkk]
  | cons kv rest ih =>
    by_cases hk : kv.fst = k
    · have hk2 : ¬ kv.fst = k2 := fun e => hkk (hk ▸ e)
      simp [dictGet, dictSet, hk, hk2, hkk]
    · simp [dictGet, dictSet, hk, ih]

theorem init_poolmanager_ctx_none (ssl : SSLModule) (ctx0 : SSLContext)
    (h : ssl.OP_LEGACY_SERVER_CONNECT = none) :
    init_poolmanager_ctx ssl ctx0 =
      Except.error "AttributeError: module ssl has no attribute OP_LEGACY_SERVER_CONNECT" := by
  simp [init_poolmanager_ctx, h]

theorem init_poolmanager_ctx_some_none (ssl : SSLModule) (ctx0 : SSLContext) (lsc : Nat)
    (h1 : ssl.OP_LEGACY_SERVER_CONNECT = some lsc)
    (h2 : ssl.OP_DONT_INSERT_EMPTY_FRAGMENTS = none) :
    init_poolmanager_ctx ssl ctx0 =
      Except.ok { base_legacy_ctx ctx0 with options := ctx0.options ||| lsc } := by
  simp [init_poolmanager_ctx, base_legacy_ctx, h1, h2]

theorem init_poolmanager_ctx_some_some (ssl : SSLModule) (ctx0 : SSLContext) (lsc dief : Nat)
    (h1 : ssl.OP_LEGACY_SERVER_CONNECT = some lsc)
    (h2 : ssl.OP_DONT_INSERT_EMPTY_FRAGMENTS = some dief) :
    init_poolmanager_ctx ssl ctx0 =
      Except.ok { base_legacy_ctx ctx0 with options := ctx0.options ||| lsc ||| dief } := by
  simp [init_poolmanager_ctx, base_legacy_ctx, h1, h2]

theorem init_poolmanager_ctx_ok_fields (ssl : SSLModule) (ctx0 ctx : SSLContext)
    (h : init_poolmanager_ctx ssl ctx0 = Except.ok ctx) :
    ctx.minimum_version = TLSVersion.TLSv1 ∧ ctx.maximum_version = TLSVersion.TLSv1_2 ∧
    ctx.ciphers = cipher_string ∧ ctx.check_hostname = false ∧
    ctx.verify_mode = VerifyMode.CERT_NONE := by
  cases h1 : ssl.OP_LEGACY_SERVER_CONNECT with
  | none =>
    rw [init_poolmanager_ctx_none ssl ctx0 h1] at h
    cases h
  | some lsc =>
    cases h2 : ssl.OP_DONT_INSERT_EMPTY_FRAGMENTS with
    | none =>
      rw [init_poolmanager_ctx_some_none ssl ctx0 lsc h1 h2] at h
      injection h with h
      subst h
      simp [base_legacy_ctx]
    | some dief =>
      rw [init_poolmanager_ctx_some_some ssl ctx0 lsc dief h1 h2] at h
      injection h with h
      subst h
      simp [base_legacy_ctx]

theorem create_session_normal (w : World) :
    create_public_data_api_session w =
      ({ headersRef := w.heap.length,
         adapters := [("https://", Adapter.publicDataApiSSLAdapter),
                      ("http://", Adapter.defaultAdapter)] },
       ⟨w.heap ++ [session_headers]⟩,
       [Event.sessionCreated w.heap.length]) := by
  unfold create_public_data_api_session PublicDataApiSSLAdapter.create_public_data_api_session
  unfold requests_Session_init Session.mount writeHeaders readHeaders
  simp only [dictSet, session_headers]
  rw [list_set_append_length]
  rw [list_getD_append_length]
  rw [list_set_append_length]
  rfl

/-! ### Claim theorems -/

/-- Claim C1: every TLS context constructed by `init_poolmanager` has its
minimum negotiable protocol version set to TLS 1.0 and its maximum to
TLS 1.2; enumerating every protocol version, the policy permits
negotiating exactly TLS 1.0, 1.1 and 1.2 — never TLS 1.3 or higher and
never below TLS 1.0. -/
theorem init_poolmanager_tls_version_bounds (ssl : SSLModule) (ctx0 ctx : SSLContext)
    (h : init_poolmanager_ctx ssl ctx0 = Except.ok ctx) :
    ctx.minimum_version = TLSVersion.TLSv1 ∧ ctx.maximum_version = TLSVersion.TLSv1_2 ∧
    negotiable ctx TLSVersion.SSLv3 = false ∧ negotiable ctx TLSVersion.TLSv1 = true ∧
    negotiable ctx TLSVersion.TLSv1_1 = true ∧ negotiable ctx TLSVersion.TLSv1_2 = true ∧
    negotiable ctx TLSVersion.TLSv1_3 = false := by
  obtain ⟨h1, h2, -, -, -⟩ := init_poolmanager_ctx_ok_fields ssl ctx0 ctx h
  refine ⟨h1, h2, ?_, ?_, ?_, ?_, ?_⟩ <;> simp [negotiable, h1, h2, TLSVersion.rank]

/-- Witness for C1: the context built from the urllib3 default context
under an `ssl` module exposing both legacy constants. -/
theorem init_poolmanager_tls_version_bounds_witness :
    builtCtxFull.minimum_version = TLSVersion.TLSv1 ∧
    builtCtxFull.maximum_version = TLSVersion.TLSv1_2 ∧
    negotiable builtCtxFull TLSVersion.SSLv3 = false ∧
    negotiable builtCtxFull TLSVersion.TLSv1_3 = false := by
  have h := init_poolmanager_tls_version_bounds sslModuleFull urllib3DefaultContext
    builtCtxFull rfl
  exact ⟨h.1, h.2.1, h.2.2.1, h.2.2.2.2.2.2⟩

/-- Claim C2: every TLS context constructed by `init_poolmanager` carries
exactly the cipher preference string listing AES128-SHA, AES256-SHA,
DHE-RSA-AES128-SHA, DHE-RSA-AES256-SHA and the 3DES suite DES-CBC3-SHA
in that order, followed by the `!aNULL` and `!eNULL` exclusions; no
offered (non-exclusion) entry is an anonymous or null suite. -/
theorem init_poolmanager_cipher_list (ssl : SSLModule) (ctx0 ctx : SSLContext)
    (h : init_poolmanager_ctx ssl ctx0 = Except.ok ctx) :
    ctx.ciphers =
      "AES128-SHA:AES256-SHA:DHE-RSA-AES128-SHA:DHE-RSA-AES256-SHA:DES-CBC3-SHA:!aNULL:!eNULL" ∧
    strSplitOnColon ctx.ciphers = weak_ciphers ++ ["!aNULL", "!eNULL"] ∧
    (strSplitOnColon ctx.ciphers).filter (fun c => !(strStartsWith c "!")) = weak_ciphers ∧
    ((strSplitOnColon ctx.ciphers).filter (fun c => !(strStartsWith c "!"))).all
      (fun c => !(strContains c "NULL") && !(strContains c "ADH") && !(strContains c "AECDH"))
      = true := by
  obtain ⟨-, -, hc, -, -⟩ := init_poolmanager_ctx_ok_fields ssl ctx0 ctx h
  rw [hc]
  refine ⟨?_, ?_, ?_, ?_⟩ <;> decide

/-- Witness for C2 at the same concrete inputs as the C1 witness. -/
theorem init_poolmanager_cipher_list_witness :
    builtCtxFull.ciphers =
      "AES128-SHA:AES256-SHA:DHE-RSA-AES128-SHA:DHE-RSA-AES256-SHA:DES-CBC3-SHA:!aNULL:!eNULL" ∧
    (strSplitOnColon builtCtxFull.ciphers).filter (fun c => !(strStartsWith c "!"))
      = weak_ciphers := by
  have h := init_poolmanager_cipher_list sslModuleFull urllib3DefaultContext builtCtxFull rfl
  exact ⟨h.1, h.2.2.1⟩

/-- Claim C3: every TLS context constructed by `init_poolmanager` has
hostname verification disabled and certificate verification mode
`CERT_NONE`, unconditionally. -/
theorem init_poolmanager_disables_verification (ssl : SSLModule) (ctx0 ctx : SSLContext)
    (h : init_poolmanager_ctx ssl ctx0 = Except.ok ctx) :
    ctx.check_hostname = false ∧ ctx.verify_mode = VerifyMode.CERT_NONE := by
  obtain ⟨-, -, -, h4, h5⟩ := init_poolmanager_ctx_ok_fields ssl ctx0 ctx h
  exact ⟨h4, h5⟩

/-- Witness for C3 at the same concrete inputs as the C1 witness. -/
theorem init_poolmanager_disables_verification_witness :
    builtCtxFull.check_hostname = false ∧ builtCtxFull.verify_mode = VerifyMode.CERT_NONE :=
  init_poolmanager_disables_verification sslModuleFull urllib3DefaultContext builtCtxFull rfl

/-- Counterexample to claim C4 as stated: with `OP_LEGACY_SERVER_CONNECT`
missing from the `ssl` module, the option is not skipped silently — the
unguarded attribute access raises `AttributeError`, so context
construction fails instead of succeeding. -/
theorem init_poolmanager_missing_legacy_fails :
    init_poolmanager_ctx sslModuleNoLegacy urllib3DefaultContext =
      Except.error "AttributeError: module ssl has no attribute OP_LEGACY_SERVER_CONNECT" := rfl

/-- Claim C4 as amended: only the `OP_DONT_INSERT_EMPTY_FRAGMENTS` option
is guarded by a `hasattr` check and skipped silently when the constant is
missing, with construction still succeeding; `OP_LEGACY_SERVER_CONNECT`
is applied unconditionally, so when that constant is missing construction
fails with `AttributeError`. -/
theorem init_poolmanager_legacy_options_best_effort (ssl : SSLModule) (ctx0 : SSLContext) :
    (ssl.OP_LEGACY_SERVER_CONNECT = none →
      init_poolmanager_ctx ssl ctx0 =
        Except.error "AttributeError: module ssl has no attribute OP_LEGACY_SERVER_CONNECT") ∧
    (∀ lsc : Nat, ssl.OP_LEGACY_SERVER_CONNECT = some lsc →
      ssl.OP_DONT_INSERT_EMPTY_FRAGMENTS = none →
      init_poolmanager_ctx ssl ctx0 =
        Except.ok { base_legacy_ctx ctx0 with options := ctx0.options ||| lsc }) ∧
    (∀ lsc dief : Nat, ssl.OP_LEGACY_SERVER_CONNECT = some lsc →
      ssl.OP_DONT_INSERT_EMPTY_FRAGMENTS = some dief →
      init_poolmanager_ctx ssl ctx0 =
        Except.ok { base_legacy_ctx ctx0 with options := ctx0.options ||| lsc ||| dief }) :=
  ⟨fun h => init_poolmanager_ctx_none ssl ctx0 h,
   fun lsc h1 h2 => init_poolmanager_ctx_some_none ssl ctx0 lsc h1 h2,
   fun lsc dief h1 h2 => init_poolmanager_ctx_some_some ssl ctx0 lsc dief h1 h2⟩

/-- Witness for the amended C4: with only `OP_DONT_INSERT_EMPTY_FRAGMENTS`
missing, the option is skipped and construction succeeds. -/
theorem init_poolmanager_legacy_options_best_effort_witness :
    init_poolmanager_ctx sslModuleOnlyLegacy urllib3DefaultContext =
      Except.ok { base_legacy_ctx urllib3DefaultContext with
                  options := urllib3DefaultContext.options ||| 4 } :=
  (init_poolmanager_legacy_options_best_effort sslModuleOnlyLegacy
    urllib3DefaultContext).2.1 4 rfl rfl

/-- Claim C10: whenever context construction succeeds, the keyword
arguments forwarded to the superclass pool-manager initializer map
`ssl_context` to the freshly built context — any caller-supplied binding
is overwritten — while the positional arguments and every other keyword
are forwarded unchanged. -/
theorem init_poolmanager_overrides_ssl_context (ssl : SSLModule) (ctx0 ctx : SSLContext)
    (args : List PMVal) (kwargs : List (String × PMVal))
    (h : init_poolmanager_ctx ssl ctx0 = Except.ok ctx) :
    init_poolmanager ssl ctx0 args kwargs =
      Except.ok (args, dictSet kwargs "ssl_context" (PMVal.sslctx ctx)) ∧
    dictGet (dictSet kwargs "ssl_context" (PMVal.sslctx ctx)) "ssl_context" =
      some (PMVal.sslctx ctx) ∧
    ∀ k : String, k ≠ "ssl_context" →
      dictGet (dictSet kwargs "ssl_context" (PMVal.sslctx ctx)) k = dictGet kwargs k := by
  refine ⟨?_, dictGet_dictSet_same kwargs "ssl_context" (PMVal.sslctx ctx),
    fun k hk => dictGet_dictSet_ne kwargs "ssl_context" k (PMVal.sslctx ctx) hk⟩
  simp [init_poolmanager, h]

/-- Witness for C10: a caller-supplied `ssl_context` binding is
overwritten while the unrelated `maxsize` binding survives untouched. -/
theorem init_poolmanager_overrides_ssl_context_witness :
    init_poolmanager sslModuleFull urllib3DefaultContext [PMVal.raw 7] kwargsExample =
      Except.ok ([PMVal.raw 7],
        [("ssl_context", PMVal.sslctx builtCtxFull), ("maxsize", PMVal.raw 10)]) ∧
    dictGet (dictSet kwargsExample "ssl_context" (PMVal.sslctx builtCtxFull)) "ssl_context" =
      some (PMVal.sslctx builtCtxFull) ∧
    dictGet (dictSet kwargsExample "ssl_context" (PMVal.sslctx builtCtxFull)) "maxsize" =
      dictGet kwargsExample "maxsize" := by
  have h := init_poolmanager_overrides_ssl_context sslModuleFull urllib3DefaultContext
    builtCtxFull [PMVal.raw 7] kwargsExample rfl
  refine ⟨?_, h.2.1, h.2.2 "maxsize" (by decide)⟩
  rw [h.1]
  rfl

theorem readHeaders_create_session (w : World) :
    readHeaders (create_public_data_api_session w).2.1
      (create_public_data_api_session w).1.headersRef = session_headers := by
  rw [create_session_normal]
  exact list_getD_append_length w.heap session_headers []

/-- Claim C5: `public_data_api_get url opts` (and likewise
`public_data_api_post`) is equal to constructing one session via the
factory and issuing a single GET (respectively POST) on it; the returned
response is the network's response unchanged, and the full event trace is
one session construction followed by one request carrying the method,
URL, and options verbatim. -/
theorem public_data_api_get_post_refinement
    (net : Nat → String → List (String × String) → Nat) (w : World) (url : String)
    (opts : List (String × String)) :
    public_data_api_get net w url opts = spec_get_via_factory net w url opts ∧
    public_data_api_post net w url opts = spec_post_via_factory net w url opts ∧
    (public_data_api_get net w url opts).1 = net methodGET url opts ∧
    (public_data_api_post net w url opts).1 = net methodPOST url opts ∧
    (public_data_api_get net w url opts).2.2 =
      [Event.sessionCreated w.heap.length, Event.request methodGET w.heap.length url opts] ∧
    (public_data_api_post net w url opts).2.2 =
      [Event.sessionCreated w.heap.length, Event.request methodPOST w.heap.length url opts] := by
  refine ⟨rfl, rfl, rfl, rfl, ?_, ?_⟩ <;>
    simp [public_data_api_get, public_data_api_post, create_session_normal, Session.request]

/-- Claim C6: every session produced by the factory ends up with a header
dictionary equal to the fixed seven-entry set — the library defaults were
cleared and replaced — whose keys are exactly the seven documented names,
each mapped to a non-empty value. -/
theorem create_session_headers_exact (w : World) :
    readHeaders (create_public_data_api_session w).2.1
        (create_public_data_api_session w).1.headersRef = session_headers ∧
    session_headers.map Prod.fst =
      ["User-Agent", "Accept", "Accept-Language", "Accept-Encoding", "Connection",
       "Upgrade-Insecure-Requests", "Referer"] ∧
    session_headers.all (fun p => decide (p.snd ≠ "")) = true :=
  ⟨readHeaders_create_session w, by decide, by decide⟩

/-- Claim C7 (failing part evaluated): every session produced by the
factory carries the documented literal values for Accept-Language,
Accept-Encoding, Connection, Upgrade-Insecure-Requests and Referer, but
its User-Agent is the placeholder literal string `User-Agent`, which is
not a desktop-browser-like string — it contains none of Mozilla, Chrome
or Safari, so the repository's own `test_user_agent_format` assertions
fail on it. -/
theorem create_session_user_agent_placeholder (w : World) :
    dictGet (readHeaders (create_public_data_api_session w).2.1
        (create_public_data_api_session w).1.headersRef) "User-Agent" = some "User-Agent" ∧
    strContains "User-Agent" "Mozilla" = false ∧
    test_user_agent_format_asserts "User-Agent" = false ∧
    dictGet (readHeaders (create_public_data_api_session w).2.1
        (create_public_data_api_session w).1.headersRef) "Accept-Language" =
      some "ko-KR,ko;q=0.9,en;q=0.8" ∧
    dictGet (readHeaders (create_public_data_api_session w).2.1
        (create_public_data_api_session w).1.headersRef) "Accept-Encoding" =
      some "gzip, deflate, br" ∧
    dictGet (readHeaders (create_public_data_api_session w).2.1
        (create_public_data_api_session w).1.headersRef) "Connection" =
      some "keep-alive" ∧
    dictGet (readHeaders (create_public_data_api_session w).2.1
        (create_public_data_api_session w).1.headersRef) "Upgrade-Insecure-Requests" =
      some "1" ∧
    dictGet (readHeaders (create_public_data_api_session w).2.1
        (create_public_data_api_session w).1.headersRef) "Referer" =
      some "https://www.data.go.kr" := by
  rw [readHeaders_create_session]
  exact ⟨by decide, by decide, by decide, by decide, by decide, by decide, by decide, by decide⟩

/-- Claim C8: two successive factory calls yield sessions whose header
dictionaries live at distinct heap references (the second one fresh), the
second construction leaves the first session's headers unchanged, and
overwriting either session's header dictionary leaves the other session's
headers untouched. -/
theorem create_session_independent_sessions (w0 : World) (hm : List (String × String)) :
    (firstSession w0).headersRef = w0.heap.length ∧
    (secondSession w0).headersRef = w0.heap.length + 1 ∧
    readHeaders (worldAfterSecond w0) (firstSession w0).headersRef =
      readHeaders (worldAfterFirst w0) (firstSession w0).headersRef ∧
    readHeaders (writeHeaders (worldAfterSecond w0) (firstSession w0).headersRef hm)
        (secondSession w0).headersRef =
      readHeaders (worldAfterSecond w0) (secondSession w0).headersRef ∧
    readHeaders (writeHeaders (worldAfterSecond w0) (secondSession w0).headersRef hm)
        (firstSession w0).headersRef =
      readHeaders (worldAfterSecond w0) (firstSession w0).headersRef := by
  have hw1 : worldAfterFirst w0 = ⟨w0.heap ++ [session_headers]⟩ := by
    unfold worldAfterFirst
    rw [create_session_normal]
  have hf : (firstSession w0).headersRef = w0.heap.length := by
    unfold firstSession
    rw [create_session_normal]
  have hs : (secondSession w0).headersRef = w0.heap.length + 1 := by
    unfold secondSession
    rw [hw1, create_session_normal]
    simp
  have hw2 : worldAfterSecond w0 = ⟨(w0.heap ++ [session_headers]) ++ [session_headers]⟩ := by
    unfold worldAfterSecond
    rw [hw1, create_session_normal]
  have hlt : w0.heap.length < (w0.heap ++ [session_headers]).length := by
    simp
  refine ⟨hf, hs, ?_, ?_, ?_⟩
  · rw [hw1, hw2, hf]
    show ((w0.heap ++ [session_headers]) ++ [session_headers]).getD w0.heap.length [] =
      (w0.heap ++ [session_headers]).getD w0.heap.length []
    exact list_getD_append_lt (w0.heap ++ [session_headers]) [session_headers]
      w0.heap.length [] hlt
  · rw [hw2, hf, hs]
    show ((((w0.heap ++ [session_headers]) ++ [session_headers]).set w0.heap.length hm).getD
        (w0.heap.length + 1) []) =
      ((w0.heap ++ [session_headers]) ++ [session_headers]).getD (w0.heap.length + 1) []
    exact list_getD_set_ne _ _ _ _ _ (Nat.ne_of_lt (Nat.lt_succ_self w0.heap.length))
  · rw [hw2, hf, hs]
    show ((((w0.heap ++ [session_headers]) ++ [session_headers]).set (w0.heap.length + 1)
        hm).getD w0.heap.length []) =
      ((w0.heap ++ [session_headers]) ++ [session_headers]).getD w0.heap.length []
    exact list_getD_set_ne _ _ _ _ _ (Nat.succ_ne_self w0.heap.length)

theorem strToLower_https : strToLower "https://" = "https://" := by decide

theorem strToLower_http : strToLower "http://" = "http://" := by decide

/-- Claim C9: the factory mounts the legacy-TLS adapter only under the
`https://` key; resolving the transport adapter for a URL whose
lowercased form starts with `https://` yields the legacy adapter, while a
plain-text `http://` URL resolves to the library's default adapter. -/
theorem mount_only_https (w : World) (url : String) :
    (create_public_data_api_session w).1.adapters =
      [("https://", Adapter.publicDataApiSSLAdapter), ("http://", Adapter.defaultAdapter)] ∧
    (strStartsWith (strToLower url) "https://" = true →
      Session.get_adapter (create_public_data_api_session w).1 url =
        Except.ok Adapter.publicDataApiSSLAdapter) ∧
    (strStartsWith (strToLower url) "https://" = false →
      strStartsWith (strToLower url) "http://" = true →
      Session.get_adapter (create_public_data_api_session w).1 url =
        Except.ok Adapter.defaultAdapter) := by
  have hA : (create_public_data_api_session w).1.adapters =
      [("https://", Adapter.publicDataApiSSLAdapter), ("http://", Adapter.defaultAdapter)] := by
    rw [create_session_normal]
  refine ⟨hA, fun h1 => ?_, fun h1 h2 => ?_⟩
  · unfold Session.get_adapter
    rw [hA]
    simp [List.find?, strToLower_https, h1]
  · unfold Session.get_adapter
    rw [hA]
    simp [List.find?, strToLower_https, strToLower_http, h1, h2]

/-- Witness for C9: a secure URL resolves to the legacy adapter; an
uppercase plain-HTTP URL resolves to the default adapter. -/
theorem mount_only_https_witness :
    Session.get_adapter (create_public_data_api_session emptyWorld).1
      "https://apis.data.go.kr/endpoint" = Except.ok Adapter.publicDataApiSSLAdapter ∧
    Session.get_adapter (create_public_data_api_session emptyWorld).1
      "HTTP://example.com/" = Except.ok Adapter.defaultAdapter := by
  have h1 := mount_only_https emptyWorld "https://apis.data.go.kr/endpoint"
  have h2 := mount_only_https emptyWorld "HTTP://example.com/"
  exact ⟨h1.2.1 (by decide), h2.2.2 (by decide) (by decide)⟩
